import Mathlib

/-!
# Verification of the NYC congestion-pricing audit pipeline

Shallow embedding, in Lean 4, of the core data-transformation stages of the
repository (schema unification, anomaly classification, geospatial
categorization, compliance analytics, gap imputation), together with theorems
checking the natural-language specification against the embedded code.

Sources embedded:
* `src/settings.py` — thresholds, weights, canonical schema, legacy maps.
* `src/ghost_trip_filter.py` — the anomaly-classification SQL cascade.
* `src/data_definitions.py` — schema unification.
* `src/geo_mapping.py` — zone categorization, daily aggregate, telemetry.
* `src/fleet_analytics.py` — compliance summary and inter-fleet dynamics.
* `src/missing_value_handler.py` — weighted cycle imputation.

Numbers are modelled over `ℚ` (DuckDB doubles/decimals; the constants of the
code are exactly representable and all theorems avoid rounding ties, so the
rational model agrees with the engine on every input used here).  Nullable SQL
columns are `Option ℚ`; SQL comparisons on nullable operands follow the
three-valued logic of SQL, where an `unknown` outcome behaves like `false` in
a `CASE WHEN` filter, which is the only position the embedded queries use
them in.
-/

namespace NycAudit

/-! ## Configuration constants (`src/settings.py`) -/

/-- `SUSPICIOUS_SPEED_LIMIT = 65.0` (mph). -/
def SUSPICIOUS_SPEED_LIMIT : ℚ := 65

/-- `MINIMUM_TRIP_SECONDS = 60`. -/
def MINIMUM_TRIP_SECONDS : ℚ := 60

/-- `REVENUE_ANOMALY_CAP = 20.0` (dollars). -/
def REVENUE_ANOMALY_CAP : ℚ := 20

/-- `MINIMUM_MOVEMENT_MILES = 0.01`. -/
def MINIMUM_MOVEMENT_MILES : ℚ := 1 / 100

/-- `HISTORICAL_CYCLE_WEIGHT = 0.3` (imputation weight of the older anchor). -/
def HISTORICAL_CYCLE_WEIGHT : ℚ := 3 / 10

/-- `RECENCY_TREND_WEIGHT = 0.7` (imputation weight of the recent anchor). -/
def RECENCY_TREND_WEIGHT : ℚ := 7 / 10

/-- `POLICY_EFFECTIVE_DATE = datetime(2025, 1, 5)`, modelled as Unix epoch
seconds (timestamps throughout are epoch seconds as rationals). -/
def POLICY_EFFECTIVE_DATE : ℚ := 1736035200

/-! ## Canonical trip records

The canonical schema (`CORE_ANALYTICS_SCHEMA`) after unification: the four
core fields are non-null by construction of the Schema Unifier, the
monetary/distance fields are nullable. -/

/-- One canonical trip record.  Timestamps are epoch seconds; zone ids are
integers; monetary and distance fields are nullable SQL doubles. -/
structure TripRecord where
  pickup_time : ℚ
  dropoff_time : ℚ
  pickup_loc : ℤ
  dropoff_loc : ℤ
  trip_distance : Option ℚ
  fare : Option ℚ
  total_amount : Option ℚ
  congestion_surcharge : Option ℚ
deriving DecidableEq, Repr

/-! ## SQL three-valued comparison helpers

In the embedded queries every comparison on a nullable operand occurs under a
`CASE WHEN` (or `WHERE`), where SQL `unknown` selects the same branch as
`false`; `AND`/`OR` of such comparisons agree with boolean `&&`/`||` under
this collapse because no `NOT` is applied to an `unknown` operand. -/

/-- SQL `a > c` for nullable `a`: `unknown` (collapsed to `false`) on NULL. -/
def sqlGT (a : Option ℚ) (c : ℚ) : Bool :=
  match a with
  | some x => decide (c < x)
  | none => false

/-- SQL `a < c` for nullable `a`. -/
def sqlLT (a : Option ℚ) (c : ℚ) : Bool :=
  match a with
  | some x => decide (x < c)
  | none => false

/-- SQL `a <= c` for nullable `a`. -/
def sqlLE (a : Option ℚ) (c : ℚ) : Bool :=
  match a with
  | some x => decide (x ≤ c)
  | none => false

/-! ## Anomaly Classifier (`src/ghost_trip_filter.py`, `audit_and_filter_trips`)

The refinery query derives `delta_t_seconds = EPOCH(dropoff_time -
pickup_time)` and `calculated_velocity_mph`, then tags each record with a
`CASE` cascade.  Note that the cascade's first arm recomputes the velocity
with `NULLIF(EPOCH(..), 0)` instead of reusing the derived column. -/

/-- `delta_t_seconds`: `EPOCH(dropoff_time - pickup_time)`. -/
def delta_t_seconds (r : TripRecord) : ℚ :=
  r.dropoff_time - r.pickup_time

/-- Derived column `calculated_velocity_mph`:
`CASE WHEN EPOCH(..) > 0 THEN trip_distance / (EPOCH(..) / 3600.0) ELSE 0 END`.
NULL `trip_distance` propagates through the division. -/
def calculated_velocity_mph (r : TripRecord) : Option ℚ :=
  if 0 < delta_t_seconds r then
    r.trip_distance.map (fun d => d / (delta_t_seconds r / 3600))
  else
    some 0

/-- The six refinery status tags. -/
inductive RefineryStatus where
  | EXCESSIVE_VELOCITY
  | FINANCIAL_OUTLIER
  | SPATIAL_ANOMALY
  | TEMPORAL_ERROR
  | NEGATIVE_REVENUE
  | VERIFIED
deriving DecidableEq, Repr

open RefineryStatus

/-- Cascade arm 1:
`(trip_distance / (NULLIF(EPOCH(..), 0) / 3600.0)) > SUSPICIOUS_SPEED_LIMIT`.
With a zero duration `NULLIF` yields NULL and the comparison is `unknown`;
otherwise the ratio is taken with the raw (possibly negative) duration. -/
def velocityRule (r : TripRecord) : Bool :=
  if delta_t_seconds r = 0 then false
  else sqlGT (r.trip_distance.map (fun d => d / (delta_t_seconds r / 3600)))
    SUSPICIOUS_SPEED_LIMIT

/-- Cascade arm 2: `EPOCH(..) < MINIMUM_TRIP_SECONDS AND fare > REVENUE_ANOMALY_CAP`. -/
def financialRule (r : TripRecord) : Bool :=
  decide (delta_t_seconds r < MINIMUM_TRIP_SECONDS) && sqlGT r.fare REVENUE_ANOMALY_CAP

/-- Cascade arm 3: `trip_distance <= MINIMUM_MOVEMENT_MILES AND fare > 0`. -/
def spatialRule (r : TripRecord) : Bool :=
  sqlLE r.trip_distance MINIMUM_MOVEMENT_MILES && sqlGT r.fare 0

/-- Cascade arm 4: `EPOCH(..) <= 0`. -/
def temporalRule (r : TripRecord) : Bool :=
  decide (delta_t_seconds r ≤ 0)

/-- Cascade arm 5: `fare < 0 OR total_amount < 0`. -/
def negativeRevenueRule (r : TripRecord) : Bool :=
  sqlLT r.fare 0 || sqlLT r.total_amount 0

/-- `refinery_status_flag`: the `CASE` cascade of `audit_and_filter_trips`,
first arm to fire wins, `ELSE 'STATUS_VERIFIED'`. -/
def refinery_status_flag (r : TripRecord) : RefineryStatus :=
  if velocityRule r then EXCESSIVE_VELOCITY
  else if financialRule r then FINANCIAL_OUTLIER
  else if spatialRule r then SPATIAL_ANOMALY
  else if temporalRule r then TEMPORAL_ERROR
  else if negativeRevenueRule r then NEGATIVE_REVENUE
  else VERIFIED

/-- The cascade as an ordered list of (predicate, label) pairs, the shape the
spec's design notes prescribe. -/
def cascadeRules : List ((TripRecord → Bool) × RefineryStatus) :=
  [(velocityRule, EXCESSIVE_VELOCITY),
   (financialRule, FINANCIAL_OUTLIER),
   (spatialRule, SPATIAL_ANOMALY),
   (temporalRule, TEMPORAL_ERROR),
   (negativeRevenueRule, NEGATIVE_REVENUE)]

/-- First-match-wins evaluation of an ordered rule list, default `VERIFIED`. -/
def firstMatch : List ((TripRecord → Bool) × RefineryStatus) → TripRecord → RefineryStatus
  | [], _ => VERIFIED
  | (p, s) :: rest, r => if p r then s else firstMatch rest r

/-- The cascade as claim C1 words it: its rule 1 compares the spec-derived
velocity (`calculated_velocity_mph`, which is 0 whenever the duration is not
positive) against the speed limit; rules 2–5 as in the code. -/
def claimC1_status (r : TripRecord) : RefineryStatus :=
  if sqlGT (calculated_velocity_mph r) SUSPICIOUS_SPEED_LIMIT then EXCESSIVE_VELOCITY
  else if financialRule r then FINANCIAL_OUTLIER
  else if spatialRule r then SPATIAL_ANOMALY
  else if temporalRule r then TEMPORAL_ERROR
  else if negativeRevenueRule r then NEGATIVE_REVENUE
  else VERIFIED

/-! ## Geospatial Classifier, categorization step
(`src/geo_mapping.py`, `execute_spatial_trip_categorization`)

`zone_category` is the `CASE` over membership of `pickup_loc`/`dropoff_loc`
in the CBD zone-identifier list (`IN` / `NOT IN` on non-null integer ids is
plain list membership). -/

/-- The four trip zone categories. -/
inductive ZoneCategory where
  | inside_zone
  | entering_zone
  | exiting_zone
  | outside_zone
deriving DecidableEq, Repr

/-- `zone_category`: the categorization `CASE` of
`execute_spatial_trip_categorization`, over the policy-zone id list `cbd`. -/
def zone_category (puLoc doLoc : ℤ) (cbd : List ℤ) : ZoneCategory :=
  if puLoc ∈ cbd ∧ doLoc ∈ cbd then ZoneCategory.inside_zone
  else if puLoc ∉ cbd ∧ doLoc ∈ cbd then ZoneCategory.entering_zone
  else if puLoc ∈ cbd ∧ doLoc ∉ cbd then ZoneCategory.exiting_zone
  else ZoneCategory.outside_zone

/-- `after_congestion_start`: `CASE WHEN pickup_time >= POLICY_EFFECTIVE_DATE
THEN 1 ELSE 0 END` of the same staging query. -/
def after_congestion_start (r : TripRecord) : ℤ :=
  if POLICY_EFFECTIVE_DATE ≤ r.pickup_time then 1 else 0

/-! ## Daily Category Aggregate and Compliance Summary

`trips_by_zone_category.parquet` rows (persistence query of
`execute_spatial_trip_categorization`) and the compliance audit of
`src/fleet_analytics.py`, `conduct_operational_compliance_audit`. -/

/-- One row of the Daily Category Aggregate datamart
(`trips_by_zone_category.parquet`): day-truncated date, category, policy
flag, count, averages (nullable), summed surcharge, compliance split.  Note
the datamart carries no zone-identifier column. -/
structure DcaRow where
  trip_date : ℚ
  zone_category : ZoneCategory
  after_congestion_start : ℤ
  trip_count : ℤ
  avg_fare : Option ℚ
  avg_total : Option ℚ
  avg_distance : Option ℚ
  total_congestion_collected : ℚ
  trips_with_surcharge : ℤ
  trips_without_surcharge : ℤ
deriving DecidableEq, Repr

/-- DuckDB rounding to nearest with ties away from zero, as used by
`ROUND(x, n)` and by casts of decimals to integers. -/
def duckRoundAway (x : ℚ) : ℤ :=
  if 0 ≤ x then ⌊x + 1 / 2⌋ else -⌊-x + 1 / 2⌋

/-- `ROUND(x, 2)`: round to two decimal places. -/
def ROUND2 (x : ℚ) : ℚ :=
  (duckRoundAway (x * 100) : ℚ) / 100

/-- The compliance restriction of the audit query:
`after_congestion_start = 1 AND zone_category IN ('entering_zone', 'exiting_zone')`. -/
def complianceRestriction (row : DcaRow) : Bool :=
  decide (row.after_congestion_start = 1) &&
    (decide (row.zone_category = ZoneCategory.entering_zone) ||
     decide (row.zone_category = ZoneCategory.exiting_zone))

/-- The rows of the datamart that the compliance audit aggregates over. -/
def complianceFiltered (dm : List DcaRow) : List DcaRow :=
  dm.filter complianceRestriction

/-- `SUM(trip_count)` over the restricted rows (as an integer; NULL-ness of
the empty SUM is handled in the audit result itself). -/
def complianceTotalVolume (dm : List DcaRow) : ℤ :=
  ((complianceFiltered dm).map (fun row => row.trip_count)).sum

/-- `SUM(trips_with_surcharge)` over the restricted rows. -/
def complianceCompliantVolume (dm : List DcaRow) : ℤ :=
  ((complianceFiltered dm).map (fun row => row.trips_with_surcharge)).sum

/-- `SUM(trips_without_surcharge)` over the restricted rows. -/
def complianceLeakageVolume (dm : List DcaRow) : ℤ :=
  ((complianceFiltered dm).map (fun row => row.trips_without_surcharge)).sum

/-- The single-row Compliance Summary produced by the audit query.  All six
fields are SQL aggregates, hence NULL when the restriction matches no row. -/
structure ComplianceMetrics where
  total_observed_volume : Option ℤ
  compliant_volume : Option ℤ
  non_compliant_leakage : Option ℤ
  leakage_coefficient : Option ℚ
  actual_revenue : Option ℚ
  theoretical_revenue_gap : Option ℚ
deriving DecidableEq, Repr

/-- `conduct_operational_compliance_audit` (the aggregate SELECT of
`src/fleet_analytics.py`): SQL `SUM` over zero rows is NULL, so every output
is NULL when no datamart row is post-policy and entering/exiting; otherwise
the sums are the integer/rational totals and
`leakage_coefficient = ROUND(100.0 * leakage / total, 2)` (a zero total —
unreachable for real aggregates, whose counts are at least 1 — is modelled
as the NULL that DuckDB's division produces) and
`theoretical_revenue_gap = leakage * 9.0`. -/
def conduct_operational_compliance_audit (dm : List DcaRow) : ComplianceMetrics :=
  if complianceFiltered dm = [] then
    ⟨none, none, none, none, none, none⟩
  else
    let tot := complianceTotalVolume dm
    let leak := complianceLeakageVolume dm
    { total_observed_volume := some tot
      compliant_volume := some (complianceCompliantVolume dm)
      non_compliant_leakage := some leak
      leakage_coefficient :=
        if tot = 0 then none else some (ROUND2 (100 * (leak : ℚ) / (tot : ℚ)))
      actual_revenue :=
        some (((complianceFiltered dm).map (fun row => row.total_congestion_collected)).sum)
      theoretical_revenue_gap := some ((leak : ℚ) * 9) }

/-- A pre-policy datamart row: the compliance restriction matches nothing,
so the audited totals and the leakage coefficient are NULL. -/
def dcaRowPrePolicy : DcaRow :=
  ⟨1704067200, ZoneCategory.entering_zone, 0, 100, none, none, none, 0, 80, 20⟩

/-- The spec's own compliance example as a datamart row: post-policy,
entering, 100 trips of which 80 carry a surcharge and 20 leak. -/
def dcaRowExample : DcaRow :=
  ⟨1736208000, ZoneCategory.entering_zone, 1, 100, none, none, none, 720, 80, 20⟩

/-! ## Schema Unifier (`src/data_definitions.py`)

`construct_structural_mapping_query` emits one SELECT item per canonical
column (a type-cast legacy column, or a NULL literal when the source lacks
the dimension); `synchronize_partition_schema` applies it with a `WHERE`
requiring the four core fields non-null.  The raw sources carry no column
with a canonical name, so DuckDB resolves the canonical names in the
`WHERE` to the SELECT aliases (a DuckDB extension): the filter tests the
computed output fields. -/

/-- `CORE_ANALYTICS_SCHEMA` of `src/settings.py`. -/
def CORE_ANALYTICS_SCHEMA : List String :=
  ["pickup_time", "dropoff_time", "pickup_loc", "dropoff_loc",
   "trip_distance", "fare", "total_amount", "congestion_surcharge"]

/-- `YELLOW_LEGACY_MAP`: source column → canonical column. -/
def YELLOW_LEGACY_MAP : List (String × String) :=
  [("tpep_pickup_datetime", "pickup_time"),
   ("tpep_dropoff_datetime", "dropoff_time"),
   ("PULocationID", "pickup_loc"),
   ("DOLocationID", "dropoff_loc"),
   ("trip_distance", "trip_distance"),
   ("fare_amount", "fare"),
   ("total_amount", "total_amount"),
   ("congestion_surcharge", "congestion_surcharge")]

/-- `GREEN_LEGACY_MAP`: source column → canonical column. -/
def GREEN_LEGACY_MAP : List (String × String) :=
  [("lpep_pickup_datetime", "pickup_time"),
   ("lpep_dropoff_datetime", "dropoff_time"),
   ("PULocationID", "pickup_loc"),
   ("DOLocationID", "dropoff_loc"),
   ("trip_distance", "trip_distance"),
   ("fare_amount", "fare"),
   ("total_amount", "total_amount"),
   ("congestion_surcharge", "congestion_surcharge")]

/-- Whether `pat` starts the character list `s` (substring match anchored at
the head). -/
def leadMatch : List Char → List Char → Bool
  | [], _ => true
  | _ :: _, [] => false
  | p :: ps, c :: cs => p == c && leadMatch ps cs

/-- Python's `pat in s` substring test on character lists. -/
def containsSub (pat : List Char) : List Char → Bool
  | [] => pat.isEmpty
  | c :: cs => leadMatch pat (c :: cs) || containsSub pat cs

/-- One SELECT item of the structural mapping query: a type-cast legacy
column or the NULL placeholder. -/
inductive ColExpr where
  | castTimestamp (src : String)
  | castDouble (src : String)
  | castInteger (src : String)
  | rawCol (src : String)
  | nullLit
deriving DecidableEq, Repr

/-- The monetary/distance columns cast to DOUBLE by the mapping query. -/
def doubleCastCols : List String :=
  ["trip_distance", "fare", "total_amount", "congestion_surcharge"]

/-- One iteration of the loop in `construct_structural_mapping_query`: if
the target column is mapped, pick the first matching legacy id and cast it
by dimension (`'time' in target_col` → TIMESTAMP, monetary list → DOUBLE,
`'loc' in target_col` → INTEGER, else raw); otherwise emit NULL. -/
def mappingSegment (legacy : List (String × String)) (target : String) : String × ColExpr :=
  match (legacy.filter (fun pr => pr.2 == target)).head? with
  | some pr =>
      if containsSub "time".data target.data then (target, ColExpr.castTimestamp pr.1)
      else if target ∈ doubleCastCols then (target, ColExpr.castDouble pr.1)
      else if containsSub "loc".data target.data then (target, ColExpr.castInteger pr.1)
      else (target, ColExpr.rawCol pr.1)
  | none => (target, ColExpr.nullLit)

/-- `construct_structural_mapping_query`: the full SELECT list, one item per
canonical column in schema order. -/
def construct_structural_mapping_query (legacy : List (String × String)) :
    List (String × ColExpr) :=
  CORE_ANALYTICS_SCHEMA.map (mappingSegment legacy)

/-- A raw source row: column name → nullable scalar.  All DuckDB scalar
types are carried on `ℚ`; the casts change the physical type but preserve
nullity, which is the property the unifier's post-conditions concern. -/
def SrcRow : Type := List (String × Option ℚ)

/-- Value of a source column in a raw row (NULL when absent). -/
def srcGet (row : SrcRow) (c : String) : Option ℚ :=
  (List.lookup c row).join

/-- Evaluate one SELECT item on a raw row. -/
def evalColExpr (row : SrcRow) : ColExpr → Option ℚ
  | ColExpr.castTimestamp src => srcGet row src
  | ColExpr.castDouble src => srcGet row src
  | ColExpr.castInteger src => srcGet row src
  | ColExpr.rawCol src => srcGet row src
  | ColExpr.nullLit => none

/-- The canonical output row produced for one raw row: canonical column
name paired with the evaluated expression. -/
def alignRow (legacy : List (String × String)) (row : SrcRow) : List (String × Option ℚ) :=
  (construct_structural_mapping_query legacy).map (fun seg => (seg.1, evalColExpr row seg.2))

/-- The four core fields whose nullity the `WHERE` clause rejects. -/
def coreFields : List String :=
  ["pickup_time", "dropoff_time", "pickup_loc", "dropoff_loc"]

/-- The `WHERE` filter of `synchronize_partition_schema` (alias-resolved
against the computed output row). -/
def coreFieldsPresent (out : List (String × Option ℚ)) : Bool :=
  coreFields.all (fun c =>
    match List.lookup c out with
    | some (some _) => true
    | _ => false)

/-- `synchronize_partition_schema` at row level: map every raw row through
the structural query and keep the rows whose four core fields are
non-null. -/
def synchronize_partition_schema (legacy : List (String × String)) (rows : List SrcRow) :
    List (List (String × Option ℚ)) :=
  (rows.map (alignRow legacy)).filter coreFieldsPresent

/-- A concrete raw yellow-fleet row for the C7 witness. -/
def srcYellowExample : SrcRow :=
  [("tpep_pickup_datetime", some 100), ("tpep_dropoff_datetime", some 400),
   ("PULocationID", some 1), ("DOLocationID", some 2),
   ("trip_distance", some 10), ("fare_amount", some 20),
   ("total_amount", some 25), ("congestion_surcharge", none)]

/-! ## Gap Imputation Model (`src/missing_value_handler.py`,
`execute_cycle_imputation`)

The two anchor day-tables (`daily_metrics_2023` / `daily_metrics_2024`) are
joined on `calendar_day` and blended with the configured weights.  The SQL
weights `0.3` / `0.7` are decimal literals, so the volume blend
`0.3 * volume + 0.7 * volume` is exact decimal arithmetic, and
`CAST(.. AS INTEGER)` on a decimal rounds to the nearest integer (ties away
from zero) — it does not truncate. -/

/-- One day-of-month row of an anchor day-table: count, means (a mean of a
nullable column is itself nullable; the surcharge mean is over
`COALESCE(congestion_surcharge, 0)`, hence non-null), modal zones. -/
structure DayMetrics where
  calendar_day : ℤ
  volume : ℤ
  mean_fare : Option ℚ
  mean_gross : Option ℚ
  mean_distance : Option ℚ
  mean_surcharge : ℚ
  primary_origin : ℤ
  primary_destination : ℤ
deriving DecidableEq, Repr

/-- One row of the synthesized `synthesized_horizon_2025` table. -/
structure SynthRow where
  calendar_day : ℤ
  estimated_volume : ℤ
  estimated_fare : Option ℚ
  estimated_gross : Option ℚ
  estimated_distance : Option ℚ
  estimated_surcharge : ℚ
  primary_origin : ℤ
  primary_destination : ℤ
deriving DecidableEq, Repr

/-- `0.3 * a + 0.7 * b` on nullable operands: NULL if either side is NULL. -/
def optBlend (a b : Option ℚ) : Option ℚ :=
  match a, b with
  | some x, some y => some (HISTORICAL_CYCLE_WEIGHT * x + RECENCY_TREND_WEIGHT * y)
  | _, _ => none

/-- The SELECT list of the synthesis query for one joined pair of day rows:
weighted numeric blends, volume cast to INTEGER, modal zones taken from the
2024 (recent) anchor. -/
def mkSynthRow (c23 c24 : DayMetrics) : SynthRow :=
  { calendar_day := c23.calendar_day
    estimated_volume :=
      duckRoundAway (HISTORICAL_CYCLE_WEIGHT * (c23.volume : ℚ) +
        RECENCY_TREND_WEIGHT * (c24.volume : ℚ))
    estimated_fare := optBlend c23.mean_fare c24.mean_fare
    estimated_gross := optBlend c23.mean_gross c24.mean_gross
    estimated_distance := optBlend c23.mean_distance c24.mean_distance
    estimated_surcharge :=
      HISTORICAL_CYCLE_WEIGHT * c23.mean_surcharge + RECENCY_TREND_WEIGHT * c24.mean_surcharge
    primary_origin := c24.primary_origin
    primary_destination := c24.primary_destination }

/-- `synthesized_horizon_2025`: the inner join
`FROM daily_metrics_2023 c23 JOIN daily_metrics_2024 c24 ON c23.calendar_day
= c24.calendar_day` with the synthesis SELECT list. -/
def synthesized_horizon (t23 t24 : List DayMetrics) : List SynthRow :=
  t23.flatMap (fun c23 =>
    (t24.filter (fun c24 => c24.calendar_day == c23.calendar_day)).map (mkSynthRow c23))

/-- Older-anchor day row used in the C5 counterexample: day 1, volume 1. -/
def dayOlderC5 : DayMetrics := ⟨1, 1, none, none, none, 0, 10, 20⟩

/-- Recent-anchor day row used in the C5 counterexample: day 1, volume 2. -/
def dayRecentC5 : DayMetrics := ⟨1, 2, none, none, none, 0, 30, 40⟩

/-- Older-anchor day row of the spec's imputation example: volume 100. -/
def dayOlderSpec : DayMetrics := ⟨5, 100, some 10, some 12, some 3, 1, 11, 22⟩

/-- Recent-anchor day row of the spec's imputation example: volume 200. -/
def dayRecentSpec : DayMetrics := ⟨5, 200, some 20, some 22, some 5, 2, 33, 44⟩

/-! ## Inter-fleet dynamics (`src/fleet_analytics.py`,
`evaluate_inter_fleet_dynamics`)

Each window query groups the window's purified trips by the derived
`fleet_identifier`; the Python then nest-loops the baseline rows over the
horizon rows and emits a record only when the identifiers match.  The
window aggregates are modelled non-null (their NULL corner aborts the whole
evaluation in the Python, producing no records at all, which cannot add a
row for a single-window fleet). -/

/-- `fleet_identifier`: `CASE WHEN source_file LIKE '%yellow%' THEN
'MEDALLION_YELLOW' ELSE 'MEDALLION_GREEN' END`. -/
def fleet_identifier_of_file (name : String) : String :=
  if containsSub "yellow".data name.data then "MEDALLION_YELLOW" else "MEDALLION_GREEN"

/-- One per-fleet aggregate row of a window query. -/
structure FleetWindowStats where
  fleet_identifier : String
  trip_volume : ℤ
  mean_fare : ℚ
  gross_revenue : ℚ
deriving DecidableEq, Repr

/-- One record of the fleet behavioral dynamics output. -/
structure FleetDynRecord where
  fleet : String
  vol_pre : ℤ
  vol_post : ℤ
  vol_change : ℚ
  fare_pre : ℚ
  fare_post : ℚ
  fare_change : ℚ
  rev_pre : ℚ
  rev_post : ℚ
  rev_change : ℚ
deriving DecidableEq, Repr

/-- The elasticity percentage: `((h - b) / b * 100) if b > 0 else 0`. -/
def pctDelta (b h : ℚ) : ℚ :=
  if 0 < b then (h - b) / b * 100 else 0

/-- The record appended for one matching baseline/horizon pair. -/
def mkDynRecord (b h : FleetWindowStats) : FleetDynRecord :=
  { fleet := b.fleet_identifier
    vol_pre := b.trip_volume
    vol_post := h.trip_volume
    vol_change := pctDelta (b.trip_volume : ℚ) (h.trip_volume : ℚ)
    fare_pre := b.mean_fare
    fare_post := h.mean_fare
    fare_change := pctDelta b.mean_fare h.mean_fare
    rev_pre := b.gross_revenue
    rev_post := h.gross_revenue
    rev_change := pctDelta b.gross_revenue h.gross_revenue }

/-- `evaluate_inter_fleet_dynamics`: the nested matching loop over the two
window aggregates. -/
def evaluate_inter_fleet_dynamics (baseline horizon : List FleetWindowStats) :
    List FleetDynRecord :=
  baseline.flatMap (fun b =>
    (horizon.filter (fun h => h.fleet_identifier == b.fleet_identifier)).map
      (fun h => mkDynRecord b h))

/-- Baseline-window aggregate used in the C8 witness. -/
def baselineYellowStats : FleetWindowStats := ⟨"MEDALLION_YELLOW", 100, 20, 3000⟩

/-- Horizon-window aggregate used in the C8 witness (a different fleet). -/
def horizonGreenStats : FleetWindowStats := ⟨"MEDALLION_GREEN", 50, 25, 1500⟩

/-! ## Partition naming and discovery globs

`process_refinery_batch` names its outputs by
`name.replace('unified', 'purified')` (resp. `'anomaly_trace'`) over the
unified partitions; `execute_spatial_trip_categorization` and
`perform_regional_compliance_telemetry` discover their inputs with the glob
`*clean*.parquet` over the same directory. -/

/-- Whether `pat` ends the character list `s`. -/
def tailMatch (pat s : List Char) : Bool :=
  leadMatch pat.reverse s.reverse

/-- Fuelled worker for Python's `str.replace` (all occurrences, left to
right, non-overlapping); the fuel is the length of the subject, enough for
a non-empty pattern. -/
def replaceGo (pat rep : List Char) : ℕ → List Char → List Char
  | 0, s => s
  | _ + 1, [] => []
  | n + 1, c :: cs =>
    if leadMatch pat (c :: cs) then rep ++ replaceGo pat rep n (List.drop (pat.length - 1) cs)
    else c :: replaceGo pat rep n cs

/-- Python's `s.replace(pat, rep)` for a non-empty `pat`. -/
def pyReplace (pat rep s : List Char) : List Char :=
  replaceGo pat rep s.length s

/-- `partition_path.name.replace('unified', 'purified')`: the purified
output name of one unified partition. -/
def purified_name (name : String) : String :=
  ⟨pyReplace "unified".data "purified".data name.data⟩

/-- `partition_path.name.replace('unified', 'anomaly_trace')`: the anomaly
trace output name. -/
def anomaly_trace_name (name : String) : String :=
  ⟨pyReplace "unified".data "anomaly_trace".data name.data⟩

/-- Whether a file name matches the glob `*clean*.parquet`: it must contain
the literal run `clean` and end with `.parquet` (the two runs share no
overlap, so this conjunction is exactly the glob). -/
def matchesCleanGlob (name : String) : Bool :=
  containsSub "clean".data name.data && tailMatch ".parquet".data name.data

/-! ## Idempotency of the batch stages

`orchestrate_fleet_schema_alignment` and `process_refinery_batch` both skip
a partition whenever its (purified) destination path already exists, and
otherwise read the source and write the output(s).  The file store is an
association list from path to content; a missing source is the
partition-level failure path (logged, nothing written). -/

/-- One partition step of a batch stage: skip when the skip-key
(`keyOf p`) already exists, else write `writes p content` for a readable
source, else record the failure by writing nothing. -/
def partitionStep {α : Type} (keyOf : String → String) (writes : String → α → List (String × α))
    (st : List (String × α)) (p : String) : List (String × α) :=
  if (List.lookup (keyOf p) st).isSome then st
  else
    match List.lookup p st with
    | some content => writes p content ++ st
    | none => st

/-- A whole batch run over the discovered partition list. -/
def batchRun {α : Type} (keyOf : String → String) (writes : String → α → List (String × α))
    (st : List (String × α)) (ps : List String) : List (String × α) :=
  List.foldl (partitionStep keyOf writes) st ps

/-- One Schema Unifier partition (`orchestrate_fleet_schema_alignment`
loop body): skip if `target_file.exists()`, else write the aligned
partition to the destination. -/
def alignPartitionStep {α : Type} (destOf : String → String) (transform : α → α)
    (st : List (String × α)) (p : String) : List (String × α) :=
  partitionStep destOf (fun q c => [(destOf q, transform c)]) st p

/-- The Schema Unifier batch over its discovered raw partitions. -/
def alignBatch {α : Type} (destOf : String → String) (transform : α → α)
    (st : List (String × α)) (ps : List String) : List (String × α) :=
  batchRun destOf (fun q c => [(destOf q, transform c)]) st ps

/-- One Anomaly Classifier partition (`process_refinery_batch` loop body):
skip if `purified_path.exists()`, else write the purified partition and the
anomaly trace. -/
def refineryPartitionStep {α : Type} (purifiedOf traceOf : String → String)
    (purify trace : α → α) (st : List (String × α)) (p : String) : List (String × α) :=
  partitionStep purifiedOf (fun q c => [(purifiedOf q, purify c), (traceOf q, trace c)]) st p

/-- The Anomaly Classifier batch over its discovered unified partitions. -/
def refineryBatch {α : Type} (purifiedOf traceOf : String → String)
    (purify trace : α → α) (st : List (String × α)) (ps : List String) : List (String × α) :=
  batchRun purifiedOf (fun q c => [(purifiedOf q, purify c), (traceOf q, trace c)]) st ps

/-! ## Regional compliance telemetry (`src/geo_mapping.py`,
`perform_regional_compliance_telemetry`)

The telemetry query filters `pickup_time >= POLICY_EFFECTIVE_DATE AND
dropoff_loc IN (SELECT DISTINCT pickup_loc FROM
trips_by_zone_category.parquet)`.  The Daily Category Aggregate has no
`pickup_loc` column, so SQL name resolution binds `pickup_loc` in the
subquery to the *outer* trip row: per outer row the subquery returns the
trip's own `pickup_loc`, once, whenever the datamart is non-empty — the
filter is effectively `dropoff_loc = pickup_loc` — and returns nothing when
the datamart is empty. -/

/-- One row of `regional_compliance_telemetry.parquet`. -/
structure TelemetryRow where
  pickup_loc : ℤ
  total_records : ℤ
  mean_fare : Option ℚ
  compliant_records : ℤ
  leakage_records : ℤ
  compliance_coefficient : ℚ
deriving DecidableEq, Repr

/-- SQL `AVG` over a nullable column: NULLs are ignored; NULL on empty. -/
def sqlAvg (vals : List (Option ℚ)) : Option ℚ :=
  let xs := vals.filterMap id
  if xs = [] then none else some (xs.sum / (xs.length : ℚ))

/-- `SELECT DISTINCT` on an integer column (order-insensitive set of
values; ties and ordering are irrelevant to every use below). -/
def sqlDistinct : List ℤ → List ℤ
  | [] => []
  | x :: xs => if x ∈ sqlDistinct xs then sqlDistinct xs else x :: sqlDistinct xs

/-- The correlated subquery `SELECT DISTINCT pickup_loc FROM datamart`
evaluated for one outer trip row: `pickup_loc` resolves to the outer row. -/
def telemetrySubqueryValues (dm : List DcaRow) (t : TripRecord) : List ℤ :=
  sqlDistinct (dm.map (fun _ => t.pickup_loc))

/-- The telemetry `WHERE` clause for one trip row. -/
def telemetryFilter (dm : List DcaRow) (t : TripRecord) : Bool :=
  decide (POLICY_EFFECTIVE_DATE ≤ t.pickup_time) &&
    decide (t.dropoff_loc ∈ telemetrySubqueryValues dm t)

/-- `congestion_surcharge > 0` (compliant split). -/
def surchargeCompliant (t : TripRecord) : Bool :=
  sqlGT t.congestion_surcharge 0

/-- `congestion_surcharge IS NULL OR congestion_surcharge = 0` (leakage split). -/
def surchargeLeakage (t : TripRecord) : Bool :=
  match t.congestion_surcharge with
  | none => true
  | some x => decide (x = 0)

/-- The aggregate row of one pickup-zone group (`COUNT`, `AVG(fare)`,
compliance split, `ROUND(100.0 * compliant / count, 2)`). -/
def telemetryGroupRow (g : List TripRecord) (k : ℤ) : TelemetryRow :=
  { pickup_loc := k
    total_records := (g.length : ℤ)
    mean_fare := sqlAvg (g.map (fun t => t.fare))
    compliant_records := ((g.filter surchargeCompliant).length : ℤ)
    leakage_records := ((g.filter surchargeLeakage).length : ℤ)
    compliance_coefficient :=
      ROUND2 (100 * ((g.filter surchargeCompliant).length : ℚ) / (g.length : ℚ)) }

/-- Descending insertion by record volume (`ORDER BY total_records DESC`;
the order among equal volumes is unspecified by SQL, the model fixes one). -/
def insertDescByVolume (val : TelemetryRow) : List TelemetryRow → List TelemetryRow
  | [] => [val]
  | r :: rest =>
    if r.total_records < val.total_records then val :: r :: rest
    else r :: insertDescByVolume val rest

/-- Sort telemetry rows by descending record volume. -/
def sortDescByVolume : List TelemetryRow → List TelemetryRow
  | [] => []
  | r :: rest => insertDescByVolume r (sortDescByVolume rest)

/-- `perform_regional_compliance_telemetry` over the trips it reads and the
persisted datamart: filter, group by pickup zone, order by volume
descending, `LIMIT 250`. -/
def perform_regional_compliance_telemetry (trips : List TripRecord) (dm : List DcaRow) :
    List TelemetryRow :=
  let filtered := trips.filter (telemetryFilter dm)
  let keys := sqlDistinct (filtered.map (fun t => t.pickup_loc))
  (sortDescByVolume (keys.map (fun k =>
    telemetryGroupRow (filtered.filter (fun t => t.pickup_loc == k)) k))).take 250

/-- A post-policy trip whose dropoff equals its pickup (zone 7), with a
recorded surcharge. -/
def tripLoopback : TripRecord :=
  ⟨1736100000, 1736101000, 7, 7, some 2, some 10, some 19, some 9⟩

/-- A post-policy cross-boundary trip from zone 5 into zone 2 (a zone of the
policy set in the spec's examples), with no surcharge. -/
def tripCrossing : TripRecord :=
  ⟨1736100000, 1736101800, 5, 2, some 4, some 10, some 10, none⟩

/-- Concrete record refuting claim C1 as stated: pickup one hour after
dropoff (duration −3600 s) and a negative recorded distance of −100 miles;
fare and total are 0.  The cascade's own velocity expression evaluates to
`(-100)/((-3600)/3600) = 100 > 65`, so the code tags `EXCESSIVE_VELOCITY`,
while the spec-defined velocity is 0 and the first satisfied rule of the
claim's cascade is rule 4 (`TEMPORAL_ERROR`). -/
def recordC1 : TripRecord :=
  ⟨3600, 0, 1, 1, some (-100), some 0, some 0, none⟩

end NycAudit

open NycAudit NycAudit.RefineryStatus

/-- C1 (counterexample): on `recordC1` the code assigns `EXCESSIVE_VELOCITY`
(the cascade's rule 1 recomputes velocity with the raw negative duration via
`NULLIF`), whereas the claim's cascade — whose rule 1 uses the spec-derived
velocity, 0 for non-positive durations — assigns `TEMPORAL_ERROR`. -/
theorem C1_counterexample :
    refinery_status_flag recordC1 = EXCESSIVE_VELOCITY ∧
    claimC1_status recordC1 = TEMPORAL_ERROR ∧
    EXCESSIVE_VELOCITY ≠ TEMPORAL_ERROR := by
  refine ⟨?_, ?_, by decide⟩
  · simp [refinery_status_flag, velocityRule, delta_t_seconds, recordC1, sqlGT,
      SUSPICIOUS_SPEED_LIMIT]
    norm_num
  · simp [claimC1_status, calculated_velocity_mph, delta_t_seconds, recordC1, sqlGT, sqlLE,
      sqlLT, SUSPICIOUS_SPEED_LIMIT, financialRule, spatialRule, temporalRule,
      negativeRevenueRule, MINIMUM_TRIP_SECONDS, MINIMUM_MOVEMENT_MILES, REVENUE_ANOMALY_CAP]
    norm_num

/-- C1 (amended): every record is assigned exactly one status, equal to the
first satisfied rule of the ordered cascade whose rule 1 is the code's
velocity test `trip_distance / (NULLIF(duration, 0) / 3600) > SPEED_LIMIT`
(never satisfied when the duration is 0 or the distance is NULL, but
satisfiable with a negative duration); in particular a record satisfying both
rule 1 and rule 4 is classified by rule 1. -/
theorem C1_cascade_first_match (r : TripRecord) :
    refinery_status_flag r = firstMatch cascadeRules r ∧
    (∃! s, refinery_status_flag r = s) ∧
    (velocityRule r = true → temporalRule r = true →
      refinery_status_flag r = EXCESSIVE_VELOCITY) := by
  refine ⟨?_, ⟨refinery_status_flag r, rfl, fun s hs => hs.symm⟩, ?_⟩
  · simp only [refinery_status_flag, cascadeRules, firstMatch]
  · intro h1 _
    simp [refinery_status_flag, h1]

/-- C1 witness: `recordC1` satisfies rules 1 and 4 simultaneously and the
code classifies it by rule 1. -/
theorem C1_cascade_first_match_witness :
    velocityRule recordC1 = true ∧ temporalRule recordC1 = true ∧
    refinery_status_flag recordC1 = EXCESSIVE_VELOCITY := by
  have h1 : velocityRule recordC1 = true := by
    simp [velocityRule, delta_t_seconds, recordC1, sqlGT, SUSPICIOUS_SPEED_LIMIT]
    norm_num
  have h4 : temporalRule recordC1 = true := by
    simp [temporalRule, delta_t_seconds, recordC1]
  exact ⟨h1, h4, (C1_cascade_first_match recordC1).2.2 h1 h4⟩

/-- C6 (confirmed): the derived velocity column equals
`trip_distance / (duration / 3600)` whenever the duration is positive (and
its divisor is then provably non-zero, so no division error can occur), and
it equals the non-null literal 0 whenever the duration is ≤ 0, including a
duration of exactly 0. -/
theorem C6_velocity_derivation (r : TripRecord) :
    (0 < delta_t_seconds r →
      calculated_velocity_mph r = r.trip_distance.map (fun d => d / (delta_t_seconds r / 3600)) ∧
      delta_t_seconds r / 3600 ≠ 0) ∧
    (delta_t_seconds r ≤ 0 → calculated_velocity_mph r = some 0) := by
  constructor
  · intro h
    refine ⟨by simp [calculated_velocity_mph, h], ?_⟩
    have h3600 : (0:ℚ) < 3600 := by norm_num
    exact ne_of_gt (div_pos h h3600)
  · intro h
    simp [calculated_velocity_mph, not_lt.mpr h]

/-- C6 witness: the spec's own example (10 miles in 300 s gives 120 mph) and
a zero-duration record whose velocity is the literal 0. -/
theorem C6_velocity_derivation_witness :
    calculated_velocity_mph ⟨0, 300, 1, 2, some 10, some 20, some 25, none⟩ = some 120 ∧
    calculated_velocity_mph ⟨0, 0, 1, 2, some 10, some 20, some 25, none⟩ = some 0 := by
  constructor
  · have h : (0:ℚ) < delta_t_seconds ⟨0, 300, 1, 2, some 10, some 20, some 25, none⟩ := by
      simp only [delta_t_seconds]; norm_num
    rw [((C6_velocity_derivation _).1 h).1]
    simp only [delta_t_seconds]
    norm_num
  · have h : delta_t_seconds ⟨0, 0, 1, 2, some 10, some 20, some 25, none⟩ ≤ 0 := by
      simp [delta_t_seconds]
    exact (C6_velocity_derivation _).2 h

/-- C3 (counterexample): on a datamart whose only row is pre-policy the
restricted total volume is zero (the restriction matches no row), and the
code's leakage coefficient is SQL NULL — not the 0 the claim states. -/
theorem C3_counterexample :
    (conduct_operational_compliance_audit [dcaRowPrePolicy]).leakage_coefficient = none ∧
    (none : Option ℚ) ≠ some 0 := by
  constructor
  · simp [conduct_operational_compliance_audit, complianceFiltered, complianceRestriction,
      dcaRowPrePolicy]
  · simp

/-- C3 (amended): when the restriction matches at least one row and the
total volume is non-zero, the leakage coefficient equals
`ROUND(100 * leakage / total, 2)`; when the restriction matches no row, every
field of the Compliance Summary — the leakage coefficient included — is NULL
(no division error is raised: the audit is a total function). -/
theorem C3_leakage_percent (dm : List DcaRow) :
    (complianceFiltered dm ≠ [] → complianceTotalVolume dm ≠ 0 →
      (conduct_operational_compliance_audit dm).leakage_coefficient =
        some (ROUND2 (100 * (complianceLeakageVolume dm : ℚ) / (complianceTotalVolume dm : ℚ)))) ∧
    (complianceFiltered dm = [] →
      conduct_operational_compliance_audit dm = ⟨none, none, none, none, none, none⟩) := by
  constructor
  · intro hne hz
    simp [conduct_operational_compliance_audit, hne, hz]
  · intro he
    simp [conduct_operational_compliance_audit, he]

/-- C3 witness: the spec's example — 100 restricted trips, 80 compliant,
20 leaking — yields a leakage coefficient of exactly 20.00. -/
theorem C3_leakage_percent_witness :
    complianceFiltered [dcaRowExample] ≠ [] ∧
    complianceTotalVolume [dcaRowExample] = 100 ∧
    complianceLeakageVolume [dcaRowExample] = 20 ∧
    (conduct_operational_compliance_audit [dcaRowExample]).leakage_coefficient = some 20 := by
  have hf : complianceFiltered [dcaRowExample] = [dcaRowExample] := by
    simp [complianceFiltered, complianceRestriction, dcaRowExample]
  have htot : complianceTotalVolume [dcaRowExample] = 100 := by
    simp only [complianceTotalVolume]
    rw [hf]
    simp [dcaRowExample]
  have hleak : complianceLeakageVolume [dcaRowExample] = 20 := by
    simp only [complianceLeakageVolume]
    rw [hf]
    simp [dcaRowExample]
  have hne : complianceFiltered [dcaRowExample] ≠ [] := by simp [hf]
  have hz : complianceTotalVolume [dcaRowExample] ≠ 0 := by simp [htot]
  have hcoeff := (C3_leakage_percent [dcaRowExample]).1 hne hz
  rw [htot, hleak] at hcoeff
  refine ⟨hne, htot, hleak, ?_⟩
  rw [hcoeff]
  norm_num [ROUND2, duckRoundAway]

/-- C5 (counterexample): with older volume 1 and recent volume 2 the blend is
`0.3·1 + 0.7·2 = 1.7`; the code's INTEGER cast yields 2, while truncation —
the rounding policy the claim asserts — would yield `⌊1.7⌋ = 1`. -/
theorem C5_counterexample :
    (synthesized_horizon [dayOlderC5] [dayRecentC5]).map (fun row => row.estimated_volume) =
      [2] ∧
    ⌊HISTORICAL_CYCLE_WEIGHT * ((1:ℤ) : ℚ) + RECENCY_TREND_WEIGHT * ((2:ℤ) : ℚ)⌋ = 1 ∧
    (2 : ℤ) ≠ 1 := by
  refine ⟨?_, ?_, by decide⟩
  · simp [synthesized_horizon, mkSynthRow, dayOlderC5, dayRecentC5, duckRoundAway,
      HISTORICAL_CYCLE_WEIGHT, RECENCY_TREND_WEIGHT]
    norm_num
  · norm_num [HISTORICAL_CYCLE_WEIGHT, RECENCY_TREND_WEIGHT]

/-- C5 (amended): the synthesized partition is the inner join of the two
anchor day-tables on day-of-month — a day present in both anchors yields a
row, a day missing from either anchor yields none — and on each joined row
every numeric metric is `0.3·older + 0.7·recent` (NULL-propagating for the
nullable means), the volume being rounded (not truncated) to the nearest
integer, while the modal pickup/dropoff zones are copied from the recent
anchor only. -/
theorem C5_weighted_imputation (t23 t24 : List DayMetrics) :
    (∀ row ∈ synthesized_horizon t23 t24,
      ∃ c23 ∈ t23, ∃ c24 ∈ t24,
        c23.calendar_day = row.calendar_day ∧ c24.calendar_day = row.calendar_day ∧
        row.estimated_volume =
          duckRoundAway (HISTORICAL_CYCLE_WEIGHT * (c23.volume : ℚ) +
            RECENCY_TREND_WEIGHT * (c24.volume : ℚ)) ∧
        row.estimated_fare = optBlend c23.mean_fare c24.mean_fare ∧
        row.estimated_gross = optBlend c23.mean_gross c24.mean_gross ∧
        row.estimated_distance = optBlend c23.mean_distance c24.mean_distance ∧
        row.estimated_surcharge =
          HISTORICAL_CYCLE_WEIGHT * c23.mean_surcharge +
            RECENCY_TREND_WEIGHT * c24.mean_surcharge ∧
        row.primary_origin = c24.primary_origin ∧
        row.primary_destination = c24.primary_destination) ∧
    (∀ c23 ∈ t23, ∀ c24 ∈ t24, c23.calendar_day = c24.calendar_day →
      mkSynthRow c23 c24 ∈ synthesized_horizon t23 t24) ∧
    (∀ d : ℤ,
      (∀ c ∈ t23, c.calendar_day ≠ d) ∨ (∀ c ∈ t24, c.calendar_day ≠ d) →
      ∀ row ∈ synthesized_horizon t23 t24, row.calendar_day ≠ d) := by
  refine ⟨?_, ?_, ?_⟩
  · intro row hrow
    simp only [synthesized_horizon, List.mem_flatMap, List.mem_map, List.mem_filter] at hrow
    obtain ⟨c23, h23, c24, ⟨h24, hday⟩, hmk⟩ := hrow
    have hdayeq : c24.calendar_day = c23.calendar_day := by
      exact beq_iff_eq.mp hday
    refine ⟨c23, h23, c24, h24, ?_⟩
    subst hmk
    simp [mkSynthRow, hdayeq]
  · intro c23 h23 c24 h24 hday
    simp only [synthesized_horizon, List.mem_flatMap, List.mem_map, List.mem_filter]
    exact ⟨c23, h23, c24, ⟨h24, beq_iff_eq.mpr hday.symm⟩, rfl⟩
  · intro d hmiss row hrow
    simp only [synthesized_horizon, List.mem_flatMap, List.mem_map, List.mem_filter] at hrow
    obtain ⟨c23, h23, c24, ⟨h24, hday⟩, hmk⟩ := hrow
    have hdayeq : c24.calendar_day = c23.calendar_day := beq_iff_eq.mp hday
    have hrowday : row.calendar_day = c23.calendar_day := by
      subst hmk; simp [mkSynthRow]
    rcases hmiss with hm | hm
    · rw [hrowday]; exact hm c23 h23
    · rw [hrowday, ← hdayeq]; exact hm c24 h24

/-- C5 witness: the spec's example (older volume 100, recent volume 200)
yields an estimated volume of exactly 170, with the modal zones of the
recent anchor; and a day present in only one anchor produces no row. -/
theorem C5_weighted_imputation_witness :
    mkSynthRow dayOlderSpec dayRecentSpec ∈
      synthesized_horizon [dayOlderSpec] [dayRecentSpec] ∧
    (mkSynthRow dayOlderSpec dayRecentSpec).estimated_volume = 170 ∧
    (mkSynthRow dayOlderSpec dayRecentSpec).primary_origin = 33 ∧
    (mkSynthRow dayOlderSpec dayRecentSpec).primary_destination = 44 ∧
    (∀ row ∈ synthesized_horizon [dayOlderSpec] [dayRecentC5], row.calendar_day ≠ 5) := by
  refine ⟨?_, ?_, ?_, ?_, ?_⟩
  · exact (C5_weighted_imputation [dayOlderSpec] [dayRecentSpec]).2.1 dayOlderSpec
      (by simp) dayRecentSpec (by simp) (by simp [dayOlderSpec, dayRecentSpec])
  · simp [mkSynthRow, dayOlderSpec, dayRecentSpec, duckRoundAway,
      HISTORICAL_CYCLE_WEIGHT, RECENCY_TREND_WEIGHT]
    norm_num
  · simp [mkSynthRow, dayRecentSpec]
  · simp [mkSynthRow, dayRecentSpec]
  · exact (C5_weighted_imputation [dayOlderSpec] [dayRecentC5]).2.2 5
      (Or.inr (by simp [dayRecentC5]))

/-- Every segment of the mapping query is labelled by its target column. -/
theorem mappingSegment_fst (legacy : List (String × String)) (target : String) :
    (mappingSegment legacy target).1 = target := by
  unfold mappingSegment
  cases h : (legacy.filter (fun pr => pr.2 == target)).head? with
  | none => simp
  | some pr => simp only; split_ifs <;> rfl

/-- C7 (confirmed): every row the Schema Unifier emits carries exactly the
canonical column list (one column per canonical name, in schema order — in
particular set equality of the column sets), and its four core fields are
all non-null. -/
theorem C7_canonical_schema (legacy : List (String × String)) (rows : List SrcRow) :
    ∀ out ∈ synchronize_partition_schema legacy rows,
      out.map Prod.fst = CORE_ANALYTICS_SCHEMA ∧
      ∀ c ∈ coreFields, ∃ v : ℚ, List.lookup c out = some (some v) := by
  intro out hout
  simp only [synchronize_partition_schema, List.mem_filter, List.mem_map] at hout
  obtain ⟨⟨row, _, hEq⟩, hcore⟩ := hout
  constructor
  · subst hEq
    simp only [alignRow, construct_structural_mapping_query, List.map_map, Function.comp_def]
    calc CORE_ANALYTICS_SCHEMA.map (fun t => (mappingSegment legacy t).1)
        = CORE_ANALYTICS_SCHEMA.map id :=
          List.map_congr_left (fun t _ => mappingSegment_fst legacy t)
      _ = CORE_ANALYTICS_SCHEMA := List.map_id _
  · intro c hc
    have hall := (List.all_eq_true.mp hcore) c hc
    cases h : List.lookup c out with
    | none => rw [h] at hall; simp at hall
    | some o =>
      cases o with
      | none => rw [h] at hall; simp at hall
      | some v => exact ⟨v, rfl⟩

/-- C7 witness: a concrete yellow-fleet raw row passes the unifier, its
output columns are exactly the canonical schema and its core fields are
non-null. -/
theorem C7_canonical_schema_witness :
    alignRow YELLOW_LEGACY_MAP srcYellowExample ∈
      synchronize_partition_schema YELLOW_LEGACY_MAP [srcYellowExample] ∧
    (alignRow YELLOW_LEGACY_MAP srcYellowExample).map Prod.fst = CORE_ANALYTICS_SCHEMA ∧
    ∀ c ∈ coreFields, ∃ v : ℚ,
      List.lookup c (alignRow YELLOW_LEGACY_MAP srcYellowExample) = some (some v) := by
  have hpres : coreFieldsPresent (alignRow YELLOW_LEGACY_MAP srcYellowExample) = true := by rfl
  have hmem : alignRow YELLOW_LEGACY_MAP srcYellowExample ∈
      synchronize_partition_schema YELLOW_LEGACY_MAP [srcYellowExample] := by
    unfold synchronize_partition_schema
    exact List.mem_filter.mpr ⟨by simp, hpres⟩
  have h := C7_canonical_schema YELLOW_LEGACY_MAP [srcYellowExample] _ hmem
  exact ⟨hmem, h.1, h.2⟩

/-- C8 (confirmed): every fleet dynamics record belongs to a fleet present
in both windows, and a fleet identifier occurring in exactly one of the two
windows yields no record (no gap row is synthesized). -/
theorem C8_inner_join_semantics (baseline horizon : List FleetWindowStats) (f : String) :
    (∀ d ∈ evaluate_inter_fleet_dynamics baseline horizon,
      (∃ b ∈ baseline, b.fleet_identifier = d.fleet) ∧
      (∃ h ∈ horizon, h.fleet_identifier = d.fleet)) ∧
    ((((∃ b ∈ baseline, b.fleet_identifier = f) ∧ ¬∃ h ∈ horizon, h.fleet_identifier = f) ∨
      ((¬∃ b ∈ baseline, b.fleet_identifier = f) ∧ ∃ h ∈ horizon, h.fleet_identifier = f)) →
      ∀ d ∈ evaluate_inter_fleet_dynamics baseline horizon, d.fleet ≠ f) := by
  have hshape : ∀ d ∈ evaluate_inter_fleet_dynamics baseline horizon,
      ∃ b ∈ baseline, ∃ h ∈ horizon,
        b.fleet_identifier = d.fleet ∧ h.fleet_identifier = d.fleet := by
    intro d hd
    simp only [evaluate_inter_fleet_dynamics, List.mem_flatMap, List.mem_map,
      List.mem_filter] at hd
    obtain ⟨b, hb, h, ⟨hh, hmatch⟩, hrec⟩ := hd
    have hfe : h.fleet_identifier = b.fleet_identifier := beq_iff_eq.mp hmatch
    subst hrec
    exact ⟨b, hb, h, hh, rfl, by simp [mkDynRecord, hfe]⟩
  constructor
  · intro d hd
    obtain ⟨b, hb, h, hh, hbf, hhf⟩ := hshape d hd
    exact ⟨⟨b, hb, hbf⟩, ⟨h, hh, hhf⟩⟩
  · rintro (⟨_, hnoh⟩ | ⟨hnob, _⟩) d hd hdf
    · obtain ⟨_, _, h, hh, _, hhf⟩ := hshape d hd
      exact hnoh ⟨h, hh, by rw [hhf, hdf]⟩
    · obtain ⟨b, hb, _, _, hbf, _⟩ := hshape d hd
      exact hnob ⟨b, hb, by rw [hbf, hdf]⟩

/-- C8 witness: with a yellow-only baseline and a green-only horizon, the
yellow fleet (present only in the baseline) contributes no record. -/
theorem C8_inner_join_semantics_witness :
    (∃ b ∈ [baselineYellowStats], b.fleet_identifier = "MEDALLION_YELLOW") ∧
    (¬∃ h ∈ [horizonGreenStats], h.fleet_identifier = "MEDALLION_YELLOW") ∧
    ∀ d ∈ evaluate_inter_fleet_dynamics [baselineYellowStats] [horizonGreenStats],
      d.fleet ≠ "MEDALLION_YELLOW" := by
  have hin : ∃ b ∈ [baselineYellowStats], b.fleet_identifier = "MEDALLION_YELLOW" := by
    exact ⟨baselineYellowStats, by simp, rfl⟩
  have hout : ¬∃ h ∈ [horizonGreenStats], h.fleet_identifier = "MEDALLION_YELLOW" := by
    simp [horizonGreenStats]
  exact ⟨hin, hout,
    (C8_inner_join_semantics [baselineYellowStats] [horizonGreenStats] "MEDALLION_YELLOW").2
      (Or.inl ⟨hin, hout⟩)⟩

/-- A key found in the right part of an association-list append is found in
the append. -/
theorem lookup_append_right_isSome {α : Type} (k : String) (l₁ l₂ : List (String × α))
    (h : (List.lookup k l₂).isSome) : (List.lookup k (l₁ ++ l₂)).isSome := by
  induction l₁ with
  | nil => exact h
  | cons a l ih =>
    obtain ⟨k', v⟩ := a
    show (List.lookup k ((k', v) :: (l ++ l₂))).isSome
    cases hk : k == k' <;> simp only [List.lookup, hk]
    · exact ih
    · rfl

/-- A key found in the left part of an association-list append is found in
the append. -/
theorem lookup_append_left_isSome {α : Type} (k : String) (l₁ l₂ : List (String × α))
    (h : (List.lookup k l₁).isSome) : (List.lookup k (l₁ ++ l₂)).isSome := by
  induction l₁ with
  | nil => exact absurd h (by simp [List.lookup])
  | cons a l ih =>
    obtain ⟨k', v⟩ := a
    show (List.lookup k ((k', v) :: (l ++ l₂))).isSome
    cases hk : k == k' <;> simp only [List.lookup, hk] at h ⊢
    · exact ih h
    · rfl

/-- A partition whose skip-key already exists is skipped: the store is
unchanged. -/
theorem partitionStep_skip {α : Type} (keyOf : String → String)
    (writes : String → α → List (String × α)) (st : List (String × α)) (p : String)
    (h : (List.lookup (keyOf p) st).isSome) : partitionStep keyOf writes st p = st := by
  simp [partitionStep, h]

/-- A partition step never removes an existing path. -/
theorem partitionStep_mono {α : Type} (keyOf : String → String)
    (writes : String → α → List (String × α)) (st : List (String × α)) (p k : String)
    (h : (List.lookup k st).isSome) :
    (List.lookup k (partitionStep keyOf writes st p)).isSome := by
  unfold partitionStep
  split
  · exact h
  · cases hsrc : List.lookup p st with
    | some c => exact lookup_append_right_isSome k _ _ h
    | none => exact h

/-- After processing a partition whose source (or skip-key) exists, the
skip-key exists — provided the write set always contains it. -/
theorem partitionStep_establishes {α : Type} (keyOf : String → String)
    (writes : String → α → List (String × α))
    (hw : ∀ q c, (List.lookup (keyOf q) (writes q c)).isSome)
    (st : List (String × α)) (p : String)
    (h : (List.lookup p st).isSome) :
    (List.lookup (keyOf p) (partitionStep keyOf writes st p)).isSome := by
  unfold partitionStep
  split
  · assumption
  · cases hsrc : List.lookup p st with
    | some c => exact lookup_append_left_isSome _ _ _ (hw p c)
    | none => rw [hsrc] at h; simp at h

/-- A batch run never removes an existing path. -/
theorem batchRun_mono {α : Type} (keyOf : String → String)
    (writes : String → α → List (String × α)) (ps : List String) :
    ∀ (st : List (String × α)) (k : String), (List.lookup k st).isSome →
      (List.lookup k (batchRun keyOf writes st ps)).isSome := by
  induction ps with
  | nil => intro st k h; exact h
  | cons p ps ih =>
    intro st k h
    exact ih _ k (partitionStep_mono keyOf writes st p k h)

/-- After a batch run, the skip-key of every partition with a readable
source exists. -/
theorem batchRun_establishes {α : Type} (keyOf : String → String)
    (writes : String → α → List (String × α))
    (hw : ∀ q c, (List.lookup (keyOf q) (writes q c)).isSome) (ps : List String) :
    ∀ (st : List (String × α)) (p : String), p ∈ ps → (List.lookup p st).isSome →
      (List.lookup (keyOf p) (batchRun keyOf writes st ps)).isSome := by
  induction ps with
  | nil => intro st p hp; simp at hp
  | cons q ps ih =>
    intro st p hp hsrc
    rcases List.mem_cons.mp hp with rfl | hp'
    · exact batchRun_mono keyOf writes ps _ _
        (partitionStep_establishes keyOf writes hw st p hsrc)
    · exact ih _ p hp' (partitionStep_mono keyOf writes st q p hsrc)

/-- A batch run over partitions whose skip-keys all exist is a no-op: no
output is rewritten and no record is duplicated. -/
theorem batchRun_noop {α : Type} (keyOf : String → String)
    (writes : String → α → List (String × α)) (ps : List String) :
    ∀ st : List (String × α), (∀ q ∈ ps, (List.lookup (keyOf q) st).isSome) →
      batchRun keyOf writes st ps = st := by
  induction ps with
  | nil => intro st _; rfl
  | cons p ps ih =>
    intro st h
    have hstep : partitionStep keyOf writes st p = st :=
      partitionStep_skip keyOf writes st p (h p (by simp))
    show batchRun keyOf writes (partitionStep keyOf writes st p) ps = st
    rw [hstep]
    exact ih st (fun q hq => h q (List.mem_cons_of_mem _ hq))

/-- Re-running a batch whose sources are all readable is the identity on the
store produced by the first run. -/
theorem batchRun_idem {α : Type} (keyOf : String → String)
    (writes : String → α → List (String × α))
    (hw : ∀ q c, (List.lookup (keyOf q) (writes q c)).isSome)
    (st : List (String × α)) (ps : List String)
    (hsrc : ∀ q ∈ ps, (List.lookup q st).isSome) :
    batchRun keyOf writes (batchRun keyOf writes st ps) ps = batchRun keyOf writes st ps :=
  batchRun_noop keyOf writes ps _
    (fun q hq => batchRun_establishes keyOf writes hw ps st q hq (hsrc q hq))

/-- C9 (confirmed): for both the Schema Unifier and the Anomaly Classifier,
a partition whose destination output already exists is skipped with the
store untouched; a batch over partitions whose destinations all exist is a
no-op (existing outputs untouched, no duplicates); and re-running a batch on
unchanged, readable input reproduces the first run's store exactly. -/
theorem C9_idempotent_reruns (α : Type) (destOf purifiedOf traceOf : String → String)
    (transform purify trace : α → α) (st : List (String × α)) (p : String) (ps : List String) :
    ((List.lookup (destOf p) st).isSome → alignPartitionStep destOf transform st p = st) ∧
    ((List.lookup (purifiedOf p) st).isSome →
      refineryPartitionStep purifiedOf traceOf purify trace st p = st) ∧
    ((∀ q ∈ ps, (List.lookup (destOf q) st).isSome) → alignBatch destOf transform st ps = st) ∧
    ((∀ q ∈ ps, (List.lookup (purifiedOf q) st).isSome) →
      refineryBatch purifiedOf traceOf purify trace st ps = st) ∧
    ((∀ q ∈ ps, (List.lookup q st).isSome) →
      alignBatch destOf transform (alignBatch destOf transform st ps) ps =
        alignBatch destOf transform st ps) ∧
    ((∀ q ∈ ps, (List.lookup q st).isSome) →
      refineryBatch purifiedOf traceOf purify trace
          (refineryBatch purifiedOf traceOf purify trace st ps) ps =
        refineryBatch purifiedOf traceOf purify trace st ps) := by
  have hwAlign : ∀ (q : String) (c : α),
      (List.lookup (destOf q) [(destOf q, transform c)]).isSome := by
    intro q c; simp [List.lookup]
  have hwRef : ∀ (q : String) (c : α),
      (List.lookup (purifiedOf q)
        [(purifiedOf q, purify c), (traceOf q, trace c)]).isSome := by
    intro q c; simp [List.lookup]
  refine ⟨?_, ?_, ?_, ?_, ?_, ?_⟩
  · exact partitionStep_skip destOf _ st p
  · exact partitionStep_skip purifiedOf _ st p
  · exact batchRun_noop destOf _ ps st
  · exact batchRun_noop purifiedOf _ ps st
  · exact batchRun_idem destOf _ hwAlign st ps
  · exact batchRun_idem purifiedOf _ hwRef st ps

/-- C9 witness: a concrete three-file store in which the destination and
purified outputs of partition `a` exist — both stages skip it, batch runs
are no-ops and the re-runs reproduce the first run exactly. -/
theorem C9_idempotent_reruns_witness :
    alignPartitionStep (fun s => "out_" ++ s) id
      [("a", (1:ℤ)), ("out_a", 2), ("pur_a", 3)] "a" =
      [("a", (1:ℤ)), ("out_a", 2), ("pur_a", 3)] ∧
    refineryPartitionStep (fun s => "pur_" ++ s) (fun s => "tr_" ++ s) id id
      [("a", (1:ℤ)), ("out_a", 2), ("pur_a", 3)] "a" =
      [("a", (1:ℤ)), ("out_a", 2), ("pur_a", 3)] ∧
    alignBatch (fun s => "out_" ++ s) id
      (alignBatch (fun s => "out_" ++ s) id
        [("a", (1:ℤ)), ("out_a", 2), ("pur_a", 3)] ["a"]) ["a"] =
      alignBatch (fun s => "out_" ++ s) id
        [("a", (1:ℤ)), ("out_a", 2), ("pur_a", 3)] ["a"] := by
  have h := C9_idempotent_reruns ℤ (fun s => "out_" ++ s) (fun s => "pur_" ++ s)
    (fun s => "tr_" ++ s) id id id [("a", (1:ℤ)), ("out_a", 2), ("pur_a", 3)] "a" ["a"]
  refine ⟨h.1 (by decide), h.2.1 (by decide), h.2.2.2.2.1 ?_⟩
  intro q hq
  rw [List.mem_singleton.mp hq]
  decide

/-- C2 (code evaluation at the failing input): the refinery's purified
output of a unified partition is named `*purified*`, and neither it nor the
unified input matches the `*clean*.parquet` glob by which the geospatial
stage discovers its inputs — the stage therefore reads none of the verified
trips. -/
theorem C2_glob_mismatch :
    purified_name "yellow_unified_yellow_tripdata_2025-01.parquet" =
      "yellow_purified_yellow_tripdata_2025-01.parquet" ∧
    matchesCleanGlob "yellow_purified_yellow_tripdata_2025-01.parquet" = false ∧
    matchesCleanGlob "green_purified_green_tripdata_2025-01.parquet" = false ∧
    matchesCleanGlob "yellow_unified_yellow_tripdata_2025-01.parquet" = false := by
  refine ⟨by decide, by decide, by decide, by decide⟩

/-- C10 (code evaluation at the failing input): the telemetry of a
post-policy loop trip (pickup = dropoff = 7, surcharged) and a post-policy
crossing trip (pickup 5, dropoff 2, unsurcharged) contains exactly the
pickup-7 group — whatever non-empty datamart is supplied — and is empty for
an empty datamart: inclusion is decided by `dropoff_loc = pickup_loc`, not
by membership of the dropoff zone in any zone set of the Daily Category
Aggregate (which has no zone column at all). -/
theorem C10_correlated_subquery :
    perform_regional_compliance_telemetry [tripLoopback, tripCrossing] [dcaRowExample] =
      [⟨7, 1, some 10, 1, 0, 100⟩] ∧
    perform_regional_compliance_telemetry [tripLoopback, tripCrossing] [dcaRowPrePolicy] =
      perform_regional_compliance_telemetry [tripLoopback, tripCrossing] [dcaRowExample] ∧
    perform_regional_compliance_telemetry [tripLoopback, tripCrossing] [] = [] := by
  refine ⟨?_, ?_, ?_⟩
  · norm_num [perform_regional_compliance_telemetry, telemetryFilter, telemetrySubqueryValues,
      sqlDistinct, telemetryGroupRow, sqlAvg, surchargeCompliant, surchargeLeakage, sqlGT,
      sortDescByVolume, insertDescByVolume, ROUND2, duckRoundAway, POLICY_EFFECTIVE_DATE,
      tripLoopback, tripCrossing, dcaRowExample, List.filterMap_cons, List.filterMap_nil,
      id_eq]
  · norm_num [perform_regional_compliance_telemetry, telemetryFilter, telemetrySubqueryValues,
      sqlDistinct, telemetryGroupRow, sqlAvg, surchargeCompliant, surchargeLeakage, sqlGT,
      sortDescByVolume, insertDescByVolume, ROUND2, duckRoundAway, POLICY_EFFECTIVE_DATE,
      tripLoopback, tripCrossing, dcaRowExample, dcaRowPrePolicy,
      List.filterMap_cons, List.filterMap_nil, id_eq]
  · norm_num [perform_regional_compliance_telemetry, telemetryFilter, telemetrySubqueryValues,
      sqlDistinct, telemetryGroupRow, sortDescByVolume, POLICY_EFFECTIVE_DATE,
      tripLoopback, tripCrossing]

/-- C4 (confirmed): for every pickup/dropoff zone pair and policy zone set,
the category is `inside_zone` iff both endpoints are in the set,
`entering_zone` iff only the dropoff is, `exiting_zone` iff only the pickup
is, `outside_zone` iff neither is; and the spec's four examples with the set
`{1, 2, 3}` evaluate as stated. -/
theorem C4_zone_categorization (puLoc doLoc : ℤ) (cbd : List ℤ) :
    (zone_category puLoc doLoc cbd = ZoneCategory.inside_zone ↔
      puLoc ∈ cbd ∧ doLoc ∈ cbd) ∧
    (zone_category puLoc doLoc cbd = ZoneCategory.entering_zone ↔
      puLoc ∉ cbd ∧ doLoc ∈ cbd) ∧
    (zone_category puLoc doLoc cbd = ZoneCategory.exiting_zone ↔
      puLoc ∈ cbd ∧ doLoc ∉ cbd) ∧
    (zone_category puLoc doLoc cbd = ZoneCategory.outside_zone ↔
      puLoc ∉ cbd ∧ doLoc ∉ cbd) ∧
    zone_category 5 2 [1, 2, 3] = ZoneCategory.entering_zone ∧
    zone_category 2 5 [1, 2, 3] = ZoneCategory.exiting_zone ∧
    zone_category 1 2 [1, 2, 3] = ZoneCategory.inside_zone ∧
    zone_category 5 9 [1, 2, 3] = ZoneCategory.outside_zone := by
  refine ⟨?_, ?_, ?_, ?_, by decide, by decide, by decide, by decide⟩ <;>
    by_cases h1 : puLoc ∈ cbd <;> by_cases h2 : doLoc ∈ cbd <;>
      simp [zone_category, h1, h2]

